import Mathlib

/-!
# Verification of the cchange.api data-access core

Shallow embedding of the entity models (`User`, `Charity`, `Post`), the
identifier allocator (`Object.js` / `schema.statics.GUID`), and the
validation pipeline (`Validation.js`) of the repository, together with
proofs of the specified properties.

Conventions of the embedding:
* A JavaScript value that may be `null`/`undefined` or absent is an
  `Option`; JS truthiness on a string parameter (`if (caption) ...`) is
  `jsTruthy`, which is false for the empty string as well as for an
  absent value.
* Timestamps (`Dates.now()`) are a `Nat` parameter `now` supplied by the
  caller; an unset timestamp field is `none`.
* The single-document store write (`Database.update` with a `$set` or
  `$push` update keyed by `guid`) is embedded as the function from the
  current document to the updated document; an operation that returns an
  error before reaching `Database.update` issues no write, which the
  `...Stored` functions make explicit by returning the old document on
  the error path.
-/

/-- JS truthiness of an optional string parameter: `if (x)` is taken for a
present, non-empty string and skipped for `undefined`, `null` and `""`. -/
def jsTruthy : Option String → Bool
  | none => false
  | some s => s ≠ ""

/-- JS truthiness of an optional numeric parameter: `if (n)` is skipped for
`undefined`, `null` and `0`. -/
def jsTruthyNat : Option Nat → Bool
  | none => false
  | some n => n ≠ 0

/-- Embeds `if (param) set.field = param` on a required string field: the field is
overwritten only when the parameter is truthy, otherwise kept. -/
def jsSetString (param : Option String) (old : String) : String :=
  if jsTruthy param then param.getD old else old

/-- Embeds `if (param) set.field = param` on an optional string field. -/
def jsSetOptString (param : Option String) (old : Option String) : Option String :=
  if jsTruthy param then param else old

/-- Modelled from the spec: `tools/Secretary.js` is repository code not under
`src/`; per §7 the error kinds it constructs are AuthorizationError (from
`Secretary.authenticationError`) and ValidationError (from
`Secretary.requestError`), carrying the message they were given. -/
inductive ApiError where
  | authorization (message : String)
  | request (message : String)
deriving DecidableEq, Repr

/-- Modelled from the spec: `Secretary.authenticationError` wraps its message
as an AuthorizationError. -/
def Secretary.authenticationError (message : String) : ApiError :=
  ApiError.authorization message

/-- Modelled from the spec: `Secretary.requestError` wraps its message as a
ValidationError. -/
def Secretary.requestError (message : String) : ApiError :=
  ApiError.request message

/-- Modelled from the spec: `tools/Messages.js` is repository code not under
`src/`; it exports fixed, non-empty, pairwise distinct message constants
referenced by `Validation.js` and the models. -/
def Messages.fieldErrors.missing : String := " is missing"

/-- Modelled from the spec: message for a value of the wrong (non-string)
type. -/
def Messages.typeErrors.string : String := " must be a string"

/-- Modelled from the spec: message for an empty string field. -/
def Messages.typeErrors.emptyString : String := " must not be empty"

/-- Modelled from the spec: message for a password with no letter. -/
def Messages.fieldErrors.passwordLetter : String := " must contain a letter"

/-- Modelled from the spec: message for a password with no digit
(the "missing-digit error" of §8). -/
def Messages.fieldErrors.passwordNumber : String := " must contain a number"

/-- Modelled from the spec: the no-access authorization message. -/
def Messages.authErrors.noAccess : String := "You don't have access to this object"

-- ===========================================================================
-- Validation.js
-- ===========================================================================

/-- Embeds `getErrorsFromArray` (Validation.js:10-17): scans the array in order and
returns the first truthy entry (`if (errors[i])`), `null` when none is. An
entry is an error message or `null`; the empty string is falsy in JS, so a
`some ""` entry is skipped exactly as the source skips it. -/
def getErrorsFromArray : List (Option String) → Option String
  | [] => none
  | e :: rest =>
    match e with
    | some s => if s = "" then getErrorsFromArray rest else some s
    | none => getErrorsFromArray rest

/-- Embeds `getNamedErrorFromArray` (Validation.js:19-23): the first truthy error of
the array, prefixed with the field name; `null` when every entry passes. -/
def getNamedErrorFromArray (errors : List (Option String)) (name : String) :
    Option String :=
  match getErrorsFromArray errors with
  | some error => if error = "" then none else some (name ++ error)
  | none => none

/-- Embeds `catchErrors` (Validation.js:126-130): the first truthy entry of the
array wrapped as a request error, `null` when every entry passes. -/
def catchErrors (errors : List (Option String)) : Option ApiError :=
  match getErrorsFromArray errors with
  | some errorMessage =>
    if errorMessage = "" then none else some (Secretary.requestError errorMessage)
  | none => none

/-- The validation pipeline as the routing layer assembles it: each field's
validator returns `getNamedErrorFromArray [result] name` — its first failing
rule formatted as `name ++ message` — and `catchErrors` scans the resulting
array in order. A pipeline input is the ordered list of
`(fieldName, validatorResult)` pairs. -/
def validationPipeline (pairs : List (String × Option String)) : Option ApiError :=
  catchErrors (pairs.map fun pr => getNamedErrorFromArray [pr.2] pr.1)

/-- Embeds `isInvalidString` (Validation.js:26-34) on a JS value that is absent or a
string: absent values are "missing", the empty string is rejected, any other
string passes. (The non-string-type branch is unreachable for string-typed
inputs and is not modelled.) -/
def isInvalidString : Option String → Option String
  | none => some Messages.fieldErrors.missing
  | some s => if s = "" then some Messages.typeErrors.emptyString else none

/-- Embeds `isInvalidLength` (Validation.js:51-57): `minlength`/`maxlength` are
checked only when truthy (present and non-zero), minimum first. -/
def isInvalidLength (input : String) (minlength maxlength : Option Nat) :
    Option String :=
  if jsTruthyNat minlength ∧ input.length < minlength.getD 0 then
    some (" must be " ++ toString (minlength.getD 0) ++ " characters")
  else if jsTruthyNat maxlength ∧ maxlength.getD 0 < input.length then
    some (" must be less than " ++ toString (maxlength.getD 0) ++ " characters")
  else none

/-- Embeds `isInvalidPassword` (Validation.js:75-81): `input.search(/[a-zA-Z]/)` is
`-1` exactly when no ASCII letter occurs, `input.search(/\d/)` when no ASCII
digit occurs; the letter rule is checked first. -/
def isInvalidPassword (input : String) : Option String :=
  if ¬ input.data.any Char.isAlpha then some Messages.fieldErrors.passwordLetter
  else if ¬ input.data.any Char.isDigit then
    some Messages.fieldErrors.passwordNumber
  else none

/-- Embeds `module.exports.password` (Validation.js:153-159): the three rules are
evaluated eagerly and the first failing one is reported, named. The input is
a string (a non-string input would make the source throw inside
`isInvalidLength` before the pipeline sees the rule results). -/
def Validation.password (name : String) (input : String) : Option String :=
  getNamedErrorFromArray
    [isInvalidString (some input),
     isInvalidLength input (some 8) none,
     isInvalidPassword input]
    name

-- ===========================================================================
-- Object.js — identifier allocation
-- ===========================================================================

/-- Embeds `schema.statics.GUID` (Object.js:47-69): generates a candidate
identifier, checks the collection for an existing document with that
identifier, and recurses on a fresh candidate whenever one is found. The
source's candidate generator (`Uuid.v4()`) is embedded as the list of
candidates it would produce in order; `used` is the membership check the
store performs (`Database.findOne` keyed by `guid`). The source recursion is
unbounded; exhausting the supplied candidates yields `none`. -/
def GUID (used : String → Bool) : List String → Option String
  | [] => none
  | g :: rest => if used g then GUID used rest else some g

/-- N sequential `allocate` calls against one collection, as the lifecycle
issues them: each successful allocation's identifier is written to the
collection by the enclosing `create` before the next allocation runs
(spec §4.5: upsert keyed by the freshly allocated id), so the next call
checks against a collection that already contains it. `batches` lists each
call's candidate stream. -/
def allocateSeq (used : String → Bool) : List (List String) → List String
  | [] => []
  | cands :: rest =>
    match GUID used cands with
    | none => allocateSeq used rest
    | some g => g :: allocateSeq (fun x => x == g || used x) rest

-- ===========================================================================
-- Entity documents (Object.js base properties + per-entity properties)
-- ===========================================================================

/-- A decoded authentication token (spec §6: an already-verified structure
exposing `user` and `charity` identifier fields). -/
structure Token where
  user : String
  charity : String
deriving DecidableEq, Repr

/-- A `User` document (src/unnamed/part_000 properties plus the Object.js
base: `guid`, `dateCreated`, `lastModified`, `erased`). Timestamp fields
have no schema default; a document created without them stores nothing
(`none`). -/
structure UserDoc where
  guid : String
  name : String
  email : String
  password : String
  dateCreated : Option Nat := none
  lastModified : Option Nat := none
  erased : Bool := false
deriving DecidableEq, Repr

/-- A `Charity` document (Post.js charity section, CharityProperties, plus
the Object.js base). `description` and `logo` default to `""`; the three
reference arrays default to `[]`. -/
structure CharityDoc where
  guid : String
  name : String
  description : String := ""
  logo : String := ""
  charityToken : String
  users : List String := []
  campaigns : List String := []
  updates : List String := []
  dateCreated : Option Nat := none
  lastModified : Option Nat := none
  erased : Bool := false
deriving DecidableEq, Repr

/-- Modelled from the spec: `Campaign.js` is repository code not under
`src/`; per §3 and its uses in Post.js a campaign carries `guid`, `name`,
`description` and `category` beyond the Object.js base. -/
structure CampaignDoc where
  guid : String
  name : String
  description : String
  category : String
  dateCreated : Option Nat := none
  lastModified : Option Nat := none
  erased : Bool := false
deriving DecidableEq, Repr

/-- A `Post` document (PostProperties plus the Object.js base).
`objectType` defaults to `"post"`, `donations` to `[]`; `caption` is
optional. -/
structure PostDoc where
  guid : String
  objectType : String := "post"
  user : String
  campaign : String
  category : String
  charity : String
  image : String
  shareableImage : String
  caption : Option String := none
  donations : List String := []
  dateCreated : Option Nat := none
  lastModified : Option Nat := none
  erased : Bool := false
deriving DecidableEq, Repr

-- ===========================================================================
-- User model (src/unnamed/part_000)
-- ===========================================================================

/-- Embeds `schema.statics.create` for User (part_000:38-84): after `GUID` yields a
fresh identifier, the upsert keyed by it inserts a document whose `$set`
carries `guid`, `name`, `email` and `password` — and nothing else: no
timestamp is written. -/
def User.create (guid name email password : String) : UserDoc :=
  { guid, name, email, password }

-- ===========================================================================
-- Post model (Post.js:1-328)
-- ===========================================================================

/-- Embeds `authenticatedToken` for posts (Post.js:22-25): the token's `user` field
must equal the post's `user` field. -/
def Post.authenticatedToken (post : PostDoc) (token : Token) : Bool :=
  if token.user == post.user then true else false

/-- Embeds `schema.statics.create` for Post (Post.js:105-157): the upsert keyed by
the fresh `guid` inserts a document whose `$set` carries the references
(`user.guid`, `campaign.guid`, `campaign.category`, `charity.guid`), the
two image URLs, `dateCreated = Dates.now()`, and — only when truthy — the
caption. -/
def Post.create (guid userGuid campaignGuid campaignCategory charityGuid
    image shareableImage : String) (caption : Option String) (now : Nat) :
    PostDoc :=
  { guid, user := userGuid, campaign := campaignGuid,
    category := campaignCategory, charity := charityGuid,
    image, shareableImage,
    caption := jsSetOptString caption none,
    dateCreated := some now }

/-- The `$set` update issued by `schema.methods.edit` for Post
(Post.js:289-295), applied to the stored document: `lastModified` is set to
`Dates.now()` and the caption is overwritten only when the parameter is
truthy. -/
def Post.applyEditSet (p : PostDoc) (caption : Option String) (now : Nat) :
    PostDoc :=
  { p with lastModified := some now,
           caption := jsSetOptString caption p.caption }

/-- Embeds `schema.methods.edit` for Post (Post.js:274-305): the token is checked
first and a failing check returns the authorization error before
`Database.update` is reached; the method destructures only `token` and
`caption`, so any further supplied parameter (such as `image`) is ignored. -/
def Post.edit (p : PostDoc) (token : Token) (image caption : Option String)
    (now : Nat) : Except ApiError PostDoc :=
  if ¬ Post.authenticatedToken p token then
    Except.error (Secretary.authenticationError Messages.authErrors.noAccess)
  else
    Except.ok (Post.applyEditSet p caption now)

/-- The stored document after an `edit` call on a post: the source issues no
write on the error path (it returns before `Database.update`), so the store
keeps the old document. -/
def Post.editStored (p : PostDoc) (token : Token) (image caption : Option String)
    (now : Nat) : PostDoc :=
  match Post.edit p token image caption now with
  | Except.ok d => d
  | Except.error _ => p

/-- Embeds `schema.methods.addDonation` (Post.js:238-263): a `$push` of the
donation's `guid` onto `donations`, keyed by the post's `guid`; no token is
taken and no other field is touched. -/
def Post.addDonation (p : PostDoc) (donationGuid : String) : PostDoc :=
  { p with donations := p.donations ++ [donationGuid] }

-- ===========================================================================
-- Charity model (Post.js:328-645, the Charity.js source)
-- ===========================================================================

/-- Embeds `authenticatedToken` for charities (Post.js:347-350): the token's
`charity` field must equal the charity's `guid`. -/
def Charity.authenticatedToken (charity : CharityDoc) (token : Token) : Bool :=
  if token.charity == charity.guid then true else false

/-- Embeds `schema.statics.create` for Charity (Post.js:413-459): the upsert keyed
by the fresh `guid` inserts a document whose `$set` carries `guid`, `name`,
`charityToken = charityToken.guid` and `dateCreated = Dates.now()`; the
schema defaults fill `description`, `logo` and the empty reference
arrays. -/
def Charity.create (guid name charityTokenGuid : String) (now : Nat) :
    CharityDoc :=
  { guid, name, charityToken := charityTokenGuid, dateCreated := some now }

/-- Embeds `schema.methods.addUser` (Post.js:472-499): a `$push` of the user's
`guid` onto `users`; the source notes it requires no authorization because
it runs as part of a still-in-progress creation sequence. -/
def Charity.addUser (c : CharityDoc) (userGuid : String) : CharityDoc :=
  { c with users := c.users ++ [userGuid] }

/-- Embeds `schema.methods.addCampaign` (Post.js:509-538): the token is checked
first; on success a `$push` of the campaign's `guid` onto `campaigns`. -/
def Charity.addCampaign (c : CharityDoc) (token : Token)
    (campaignGuid : String) : Except ApiError CharityDoc :=
  if ¬ Charity.authenticatedToken c token then
    Except.error (Secretary.authenticationError Messages.authErrors.noAccess)
  else
    Except.ok { c with campaigns := c.campaigns ++ [campaignGuid] }

/-- Embeds `schema.methods.addUpdate` (Post.js:548-577): the token is checked
first; on success a `$push` of the update's `guid` onto `updates`. -/
def Charity.addUpdate (c : CharityDoc) (token : Token)
    (updateGuid : String) : Except ApiError CharityDoc :=
  if ¬ Charity.authenticatedToken c token then
    Except.error (Secretary.authenticationError Messages.authErrors.noAccess)
  else
    Except.ok { c with updates := c.updates ++ [updateGuid] }

/-- The `$set` update issued by `schema.methods.edit` for Charity
(Post.js:604-612): `lastModified = Dates.now()`, and each of `name`,
`description`, `logo` overwritten only when its parameter is truthy. -/
def Charity.applyEditSet (c : CharityDoc) (name description logo : Option String)
    (now : Nat) : CharityDoc :=
  { c with lastModified := some now,
           name := jsSetString name c.name,
           description := jsSetString description c.description,
           logo := jsSetString logo c.logo }

/-- Embeds `schema.methods.edit` for Charity (Post.js:589-622): the token is
checked first and a failing check returns the authorization error before
`Database.update` is reached. -/
def Charity.edit (c : CharityDoc) (token : Token)
    (name description logo : Option String) (now : Nat) :
    Except ApiError CharityDoc :=
  if ¬ Charity.authenticatedToken c token then
    Except.error (Secretary.authenticationError Messages.authErrors.noAccess)
  else
    Except.ok (Charity.applyEditSet c name description logo now)

/-- The stored document after an `edit` call on a charity: no write is
issued on the error path. -/
def Charity.editStored (c : CharityDoc) (token : Token)
    (name description logo : Option String) (now : Nat) : CharityDoc :=
  match Charity.edit c token name description logo now with
  | Except.ok d => d
  | Except.error _ => c

-- ===========================================================================
-- Post.format (Post.js:171-229) — aggregation
-- ===========================================================================

/-- The composite view returned by `schema.methods.format` on a post: the
post's own fields (`this.toObject()`) with up to three groups of display
fields attached from the referenced charity, campaign and user. A group is
absent (`none`) when its lookup does not resolve. -/
structure PostView where
  post : PostDoc
  charityName : Option String := none
  charityLogo : Option String := none
  charityDescription : Option String := none
  campaignName : Option String := none
  campaignDescription : Option String := none
  userName : Option String := none
deriving DecidableEq, Repr

/-- Embeds `schema.methods.format` for Post (Post.js:171-229): three independent
`Database.findOne` lookups keyed by the post's `charity`, `campaign` and
`user` references; each lookup that resolves copies its whitelist of
display fields onto the view, each that does not is skipped
(`if (charity) ...`), and lookup errors are dropped (every inner callback
is invoked with no error), so the call always produces the view. The store
lookups are embedded as the functions `findCharity`, `findCampaign`,
`findUser`. -/
def Post.format (p : PostDoc) (findCharity : String → Option CharityDoc)
    (findCampaign : String → Option CampaignDoc)
    (findUser : String → Option UserDoc) : PostView :=
  let v0 : PostView := { post := p }
  let v1 :=
    match findCharity p.charity with
    | some charity =>
      { v0 with charityName := some charity.name,
                charityLogo := some charity.logo,
                charityDescription := some charity.description }
    | none => v0
  let v2 :=
    match findCampaign p.campaign with
    | some campaign =>
      { v1 with campaignName := some campaign.name,
                campaignDescription := some campaign.description }
    | none => v1
  let v3 :=
    match findUser p.user with
    | some user => { v2 with userName := some user.name }
    | none => v2
  v3

-- ===========================================================================
-- Helper lemmas
-- ===========================================================================

lemma append_ne_empty_right (n m : String) (hm : m ≠ "") : n ++ m ≠ "" := by
  intro h
  apply hm
  have hd : n.data ++ m.data = [] := by
    have := congrArg String.data h
    simpa using this
  rcases List.append_eq_nil.mp hd with ⟨-, h2⟩
  cases m
  simp_all

lemma getNamedErrorFromArray_single (name : String) (r : Option String)
    (hr : r ≠ some "") :
    getNamedErrorFromArray [r] name = r.map fun m => name ++ m := by
  cases r with
  | none => rfl
  | some m =>
    have hm : m ≠ "" := fun h => hr (by rw [h])
    simp [getNamedErrorFromArray, getErrorsFromArray, hm]

lemma catchErrors_cons (e : Option String) (es : List (Option String)) :
    catchErrors (e :: es) =
      match e with
      | some s =>
        if s = "" then catchErrors es else some (Secretary.requestError s)
      | none => catchErrors es := by
  cases e with
  | none => simp [catchErrors, getErrorsFromArray]
  | some s =>
    by_cases hs : s = "" <;> simp [catchErrors, getErrorsFromArray, hs]

lemma validationPipeline_eq_findSome (pairs : List (String × Option String))
    (hmsg : ∀ pr ∈ pairs, pr.2 ≠ some "") :
    validationPipeline pairs =
      pairs.findSome? fun pr =>
        pr.2.map fun m => Secretary.requestError (pr.1 ++ m) := by
  induction pairs with
  | nil => rfl
  | cons pr rest ih =>
    obtain ⟨n, r⟩ := pr
    have hr : r ≠ some "" := hmsg (n, r) (by simp)
    have hrest : ∀ p ∈ rest, p.2 ≠ some "" := fun p hp => hmsg p (by simp [hp])
    have hmap : validationPipeline ((n, r) :: rest) =
        catchErrors (getNamedErrorFromArray [r] n ::
          rest.map fun pr => getNamedErrorFromArray [pr.2] pr.1) := rfl
    cases r with
    | none =>
      rw [hmap, getNamedErrorFromArray_single n none hr]
      simp only [Option.map_none']
      rw [catchErrors_cons]
      simpa using ih hrest
    | some m =>
      have hm : m ≠ "" := fun h => hr (by rw [h])
      rw [hmap, getNamedErrorFromArray_single n (some m) hr]
      simp only [Option.map_some']
      rw [catchErrors_cons]
      simp [append_ne_empty_right n m hm]

/-- C5: The validation pipeline scans its ordered list of
`(fieldName, validatorResult)` pairs in list order and returns the first
non-absent result, formatted as `fieldName ++ message` (wrapped as the
request error `catchErrors` produces), and returns absent when every field
passes. The hypothesis restricts to the results the validators of
`Validation.js` can actually produce: a failing validator reports a
non-empty message. -/
theorem validationPipeline_first_named_error
    (pairs : List (String × Option String))
    (hmsg : ∀ pr ∈ pairs, pr.2 ≠ some "") :
    validationPipeline pairs =
      (pairs.findSome? fun pr =>
        pr.2.map fun m => Secretary.requestError (pr.1 ++ m)) ∧
    ((∀ pr ∈ pairs, pr.2 = none) → validationPipeline pairs = none) := by
  refine ⟨validationPipeline_eq_findSome pairs hmsg, fun hall => ?_⟩
  rw [validationPipeline_eq_findSome pairs hmsg]
  rw [List.findSome?_eq_none_iff]
  intro pr hpr
  rw [hall pr hpr]
  rfl

/-- Witness for `validationPipeline_first_named_error` at a concrete list:
the first failing field (the second pair) is reported, named. -/
theorem validationPipeline_first_named_error_witness :
    validationPipeline
        [("Name", none), ("Email", some " is missing"), ("Password", some "x")] =
      some (Secretary.requestError "Email is missing") := by
  have h := validationPipeline_first_named_error
    [("Name", none), ("Email", some " is missing"), ("Password", some "x")]
    (by intro pr hpr; fin_cases hpr <;> simp)
  rw [h.1]
  rfl

lemma getErrorsFromArray_none_cons (es : List (Option String)) :
    getErrorsFromArray (none :: es) = getErrorsFromArray es := rfl

lemma getErrorsFromArray_some_cons (s : String) (es : List (Option String))
    (h : s ≠ "") : getErrorsFromArray (some s :: es) = some s := by
  simp [getErrorsFromArray, h]

/-- C6: The password validator yields the minimum-length error for
`"abc"`, the missing-digit error for `"abcdefgh"`, and no error for
`"abcd1234"`; in general it reports exactly the first failing rule among
non-empty-string, minimum length 8, and letter-and-digit content. -/
theorem password_validator_spec :
    (∀ name, Validation.password name "abc" =
      some (name ++ " must be 8 characters")) ∧
    (∀ name, Validation.password name "abcdefgh" =
      some (name ++ Messages.fieldErrors.passwordNumber)) ∧
    (∀ name, Validation.password name "abcd1234" = none) ∧
    (∀ name input, Validation.password name input =
      if input = "" then some (name ++ Messages.typeErrors.emptyString)
      else if input.length < 8 then some (name ++ " must be 8 characters")
      else if ¬ input.data.any Char.isAlpha then
        some (name ++ Messages.fieldErrors.passwordLetter)
      else if ¬ input.data.any Char.isDigit then
        some (name ++ Messages.fieldErrors.passwordNumber)
      else none) := by
  have general : ∀ name input, Validation.password name input =
      if input = "" then some (name ++ Messages.typeErrors.emptyString)
      else if input.length < 8 then some (name ++ " must be 8 characters")
      else if ¬ input.data.any Char.isAlpha then
        some (name ++ Messages.fieldErrors.passwordLetter)
      else if ¬ input.data.any Char.isDigit then
        some (name ++ Messages.fieldErrors.passwordNumber)
      else none := by
    intro name input
    by_cases h1 : input = ""
    · subst h1; rfl
    have hS : isInvalidString (some input) = none := by
      simp [isInvalidString, h1]
    by_cases h2 : input.length < 8
    · have hL : isInvalidLength input (some 8) none =
          some " must be 8 characters" := by
        rw [isInvalidLength,
          if_pos (show jsTruthyNat (some 8) = true ∧
            input.length < (some 8).getD 0 from ⟨by decide, h2⟩)]
        rfl
      rw [Validation.password, getNamedErrorFromArray, hS, hL,
        getErrorsFromArray_none_cons,
        getErrorsFromArray_some_cons _ _ (by decide)]
      simp [h1, h2]
    have hL : isInvalidLength input (some 8) none = none := by
      rw [isInvalidLength, if_neg (fun hc => h2 hc.2),
        if_neg (by simp [jsTruthyNat])]
    by_cases h3 : input.data.any Char.isAlpha
    · by_cases h4 : input.data.any Char.isDigit
      · have hP : isInvalidPassword input = none := by
          rw [isInvalidPassword, if_neg (by simpa using h3),
            if_neg (by simpa using h4)]
        rw [Validation.password, getNamedErrorFromArray, hS, hL, hP]
        simp [getErrorsFromArray, h1, h2, h3, h4]
      · have hP : isInvalidPassword input =
            some Messages.fieldErrors.passwordNumber := by
          rw [isInvalidPassword, if_neg (by simpa using h3),
            if_pos (by simpa using h4)]
        rw [Validation.password, getNamedErrorFromArray, hS, hL, hP,
          getErrorsFromArray_none_cons, getErrorsFromArray_none_cons,
          getErrorsFromArray_some_cons _ _ (by decide)]
        simp [h1, h2, h3, h4, Messages.fieldErrors.passwordNumber]
    · have hP : isInvalidPassword input =
          some Messages.fieldErrors.passwordLetter := by
        rw [isInvalidPassword, if_pos (by simpa using h3)]
      rw [Validation.password, getNamedErrorFromArray, hS, hL, hP,
        getErrorsFromArray_none_cons, getErrorsFromArray_none_cons,
        getErrorsFromArray_some_cons _ _ (by decide)]
      simp [h1, h2, h3, Messages.fieldErrors.passwordLetter]
  refine ⟨fun name => ?_, fun name => ?_, fun name => ?_, general⟩
  · rw [general, if_neg (by decide), if_pos (by decide)]
  · rw [general, if_neg (by decide), if_neg (by decide),
      if_neg (by decide), if_pos (by decide)]
  · rw [general, if_neg (by decide), if_neg (by decide),
      if_neg (by decide), if_neg (by decide)]

lemma GUID_unused (used : String → Bool) (cands : List String) (g : String)
    (h : GUID used cands = some g) : used g = false := by
  induction cands with
  | nil => simp [GUID] at h
  | cons c rest ih =>
    rw [GUID] at h
    by_cases hc : used c = true
    · rw [if_pos hc] at h; exact ih h
    · rw [if_neg hc] at h
      cases h
      exact Bool.not_eq_true _ ▸ hc

lemma allocateSeq_not_mem (batches : List (List String)) :
    ∀ (used : String → Bool) (g : String), used g = true →
      g ∉ allocateSeq used batches := by
  induction batches with
  | nil => intro used g _; simp [allocateSeq]
  | cons cands rest ih =>
    intro used g h
    rw [allocateSeq]
    cases hG : GUID used cands with
    | none => exact ih used g h
    | some a =>
      have ha : used a = false := GUID_unused used cands a hG
      intro hmem
      rcases List.mem_cons.mp hmem with rfl | hmem2
      · rw [h] at ha; cases ha
      · exact ih _ g (by simp [h]) hmem2

lemma allocateSeq_pairwise (batches : List (List String)) :
    ∀ used : String → Bool, (allocateSeq used batches).Pairwise (· ≠ ·) := by
  induction batches with
  | nil => intro used; simp [allocateSeq]
  | cons cands rest ih =>
    intro used
    rw [allocateSeq]
    cases hG : GUID used cands with
    | none => exact ih used
    | some a =>
      refine List.Pairwise.cons ?_ (ih _)
      intro b hb hab
      subst hab
      exact allocateSeq_not_mem rest _ a (by simp) hb

/-- C4: `GUID` never returns an identifier unconfirmed: a returned
identifier was checked against the collection and found unused (candidates
found in use are discarded and a fresh one is tried), and N sequential
allocations against one collection — each allocated identifier being written
into the collection by its enclosing `create` before the next allocation —
return pairwise distinct identifiers, whatever candidates the generator
produces. -/
theorem GUID_confirmed_and_distinct :
    (∀ (used : String → Bool) (cands : List String) (g : String),
      GUID used cands = some g → used g = false) ∧
    (∀ (used : String → Bool) (batches : List (List String)),
      (allocateSeq used batches).Pairwise (· ≠ ·)) :=
  ⟨GUID_unused, fun used batches => allocateSeq_pairwise batches used⟩

/-- Witness for `GUID_confirmed_and_distinct`: with `"taken"` the only used
identifier, allocation from candidates `["taken", "fresh"]` retries past the
collision and returns `"fresh"`, which the collection check finds unused;
two further sequential allocations stay pairwise distinct. -/
theorem GUID_confirmed_and_distinct_witness :
    (fun s => s == "taken") "fresh" = false ∧
    (allocateSeq (fun s => s == "taken")
      [["taken", "g1"], ["g1", "g2"]]).Pairwise (· ≠ ·) :=
  ⟨GUID_confirmed_and_distinct.1 (fun s => s == "taken") ["taken", "fresh"]
      "fresh" (by rfl),
    GUID_confirmed_and_distinct.2 (fun s => s == "taken")
      [["taken", "g1"], ["g1", "g2"]]⟩

/-- C7: The ownership predicate is keyed per entity type: a post's owner
check holds exactly when `token.user` equals `post.user`, a charity's
exactly when `token.charity` equals the charity's `guid`; and every
mutating operation on that type that performs authorization applies that
same predicate — it fails (returns the authorization error) exactly when
the predicate is false (`Post.edit`; `Charity.addCampaign`,
`Charity.addUpdate`, `Charity.edit`). -/
theorem ownership_predicate_per_type :
    (∀ (p : PostDoc) (t : Token),
      Post.authenticatedToken p t = true ↔ t.user = p.user) ∧
    (∀ (c : CharityDoc) (t : Token),
      Charity.authenticatedToken c t = true ↔ t.charity = c.guid) ∧
    (∀ (p : PostDoc) (t : Token) (image caption : Option String) (now : Nat),
      (∃ e, Post.edit p t image caption now = Except.error e) ↔
        Post.authenticatedToken p t = false) ∧
    (∀ (c : CharityDoc) (t : Token) (g : String),
      (∃ e, Charity.addCampaign c t g = Except.error e) ↔
        Charity.authenticatedToken c t = false) ∧
    (∀ (c : CharityDoc) (t : Token) (g : String),
      (∃ e, Charity.addUpdate c t g = Except.error e) ↔
        Charity.authenticatedToken c t = false) ∧
    (∀ (c : CharityDoc) (t : Token) (n d l : Option String) (now : Nat),
      (∃ e, Charity.edit c t n d l now = Except.error e) ↔
        Charity.authenticatedToken c t = false) := by
  refine ⟨fun p t => ?_, fun c t => ?_, fun p t image caption now => ?_,
    fun c t g => ?_, fun c t g => ?_, fun c t n d l now => ?_⟩
  · simp [Post.authenticatedToken]
  · simp [Charity.authenticatedToken]
  · by_cases h : Post.authenticatedToken p t <;>
      simp [Post.edit, h]
  · by_cases h : Charity.authenticatedToken c t <;>
      simp [Charity.addCampaign, h]
  · by_cases h : Charity.authenticatedToken c t <;>
      simp [Charity.addUpdate, h]
  · by_cases h : Charity.authenticatedToken c t <;>
      simp [Charity.edit, h]

/-- Counterexample to **C1** as stated: the `$set` issued by the User
create (part_000:62-69) carries only `guid`, `name`, `email` and
`password`, so a successful `User.create` writes a document whose
`dateCreated` field is not set at all. -/
theorem userCreate_dateCreated_unset :
    (User.create "u1" "Alice" "alice@example.com" "abcd1234").dateCreated
      = none := rfl

/-- C1 (amended): A successful Post or Charity create writes a document
with `dateCreated = now`, and no later modelled operation (edit or
array-append, on either entity, successful or not) rewrites `dateCreated`;
`User.create`, however, writes no `dateCreated` at all. -/
theorem dateCreated_once_at_creation :
    (∀ (guid userGuid campaignGuid campaignCategory charityGuid image
        shareableImage : String) (caption : Option String) (now : Nat),
      (Post.create guid userGuid campaignGuid campaignCategory charityGuid
        image shareableImage caption now).dateCreated = some now) ∧
    (∀ (guid name charityTokenGuid : String) (now : Nat),
      (Charity.create guid name charityTokenGuid now).dateCreated
        = some now) ∧
    (∀ guid name email password : String,
      (User.create guid name email password).dateCreated = none) ∧
    (∀ (p : PostDoc) (t : Token) (image caption : Option String) (now : Nat),
      (Post.editStored p t image caption now).dateCreated = p.dateCreated) ∧
    (∀ (p : PostDoc) (d : String),
      (Post.addDonation p d).dateCreated = p.dateCreated) ∧
    (∀ (c : CharityDoc) (u : String),
      (Charity.addUser c u).dateCreated = c.dateCreated) ∧
    (∀ (c : CharityDoc) (t : Token) (g : String) (r : CharityDoc),
      Charity.addCampaign c t g = Except.ok r →
        r.dateCreated = c.dateCreated) ∧
    (∀ (c : CharityDoc) (t : Token) (g : String) (r : CharityDoc),
      Charity.addUpdate c t g = Except.ok r →
        r.dateCreated = c.dateCreated) ∧
    (∀ (c : CharityDoc) (t : Token) (n d l : Option String) (now : Nat),
      (Charity.editStored c t n d l now).dateCreated = c.dateCreated) := by
  refine ⟨fun _ _ _ _ _ _ _ _ _ => rfl, fun _ _ _ _ => rfl,
    fun _ _ _ _ => rfl, ?_, fun _ _ => rfl, fun _ _ => rfl, ?_, ?_, ?_⟩
  · intro p t image caption now
    rw [Post.editStored]
    by_cases h : Post.authenticatedToken p t <;>
      simp [Post.edit, h, Post.applyEditSet]
  · intro c t g r h
    by_cases ha : Charity.authenticatedToken c t <;>
      simp [Charity.addCampaign, ha] at h
    rw [← h]
  · intro c t g r h
    by_cases ha : Charity.authenticatedToken c t <;>
      simp [Charity.addUpdate, ha] at h
    rw [← h]
  · intro c t n d l now
    rw [Charity.editStored]
    by_cases h : Charity.authenticatedToken c t <;>
      simp [Charity.edit, h, Charity.applyEditSet]

/-- Witness for `dateCreated_once_at_creation`: a concrete charity created
at time 7 keeps `dateCreated = 7` across an authorized `addCampaign`. -/
theorem dateCreated_once_at_creation_witness :
    Charity.addCampaign (Charity.create "ch1" "Helping Hands" "tok1" 7)
        { user := "u1", charity := "ch1" } "camp1" =
      Except.ok { guid := "ch1", name := "Helping Hands",
                  charityToken := "tok1", campaigns := ["camp1"],
                  dateCreated := some 7 } ∧
    ({ guid := "ch1", name := "Helping Hands", charityToken := "tok1",
       campaigns := ["camp1"], dateCreated := some 7 } :
      CharityDoc).dateCreated =
      (Charity.create "ch1" "Helping Hands" "tok1" 7).dateCreated := by
  constructor
  · rfl
  · exact dateCreated_once_at_creation.2.2.2.2.2.2.1
      (Charity.create "ch1" "Helping Hands" "tok1" 7)
      { user := "u1", charity := "ch1" } "camp1" _ (by rfl)

/-- C2: An edit on a post or a charity called with a token whose
ownership field does not match the entity returns the AuthorizationError
before any write is attempted (the source returns ahead of
`Database.update`), and the stored document is unchanged. -/
theorem edit_auth_failure_no_write :
    (∀ (p : PostDoc) (t : Token) (image caption : Option String) (now : Nat),
      t.user ≠ p.user →
        Post.edit p t image caption now =
          Except.error
            (Secretary.authenticationError Messages.authErrors.noAccess) ∧
        Post.editStored p t image caption now = p) ∧
    (∀ (c : CharityDoc) (t : Token) (n d l : Option String) (now : Nat),
      t.charity ≠ c.guid →
        Charity.edit c t n d l now =
          Except.error
            (Secretary.authenticationError Messages.authErrors.noAccess) ∧
        Charity.editStored c t n d l now = c) := by
  constructor
  · intro p t image caption now h
    have hb : Post.authenticatedToken p t = false := by
      simp [Post.authenticatedToken, h]
    exact ⟨by simp [Post.edit, hb], by simp [Post.editStored, Post.edit, hb]⟩
  · intro c t n d l now h
    have hb : Charity.authenticatedToken c t = false := by
      simp [Charity.authenticatedToken, h]
    exact ⟨by simp [Charity.edit, hb],
      by simp [Charity.editStored, Charity.edit, hb]⟩

/-- Witness for `edit_auth_failure_no_write`: a token owned by `"intruder"`
cannot edit a post owned by `"u1"`; the stored post is unchanged. -/
theorem edit_auth_failure_no_write_witness :
    Post.edit
        { guid := "p1", user := "u1", campaign := "c1",
          category := "Education", charity := "ch1",
          image := "http://x.com/a.png",
          shareableImage := "http://x.com/b.png" }
        { user := "intruder", charity := "ch1" } none (some "new caption") 9 =
      Except.error
        (Secretary.authenticationError Messages.authErrors.noAccess) ∧
    Post.editStored
        { guid := "p1", user := "u1", campaign := "c1",
          category := "Education", charity := "ch1",
          image := "http://x.com/a.png",
          shareableImage := "http://x.com/b.png" }
        { user := "intruder", charity := "ch1" } none (some "new caption") 9 =
      { guid := "p1", user := "u1", campaign := "c1",
        category := "Education", charity := "ch1",
        image := "http://x.com/a.png",
        shareableImage := "http://x.com/b.png" } :=
  edit_auth_failure_no_write.1
    { guid := "p1", user := "u1", campaign := "c1",
      category := "Education", charity := "ch1",
      image := "http://x.com/a.png",
      shareableImage := "http://x.com/b.png" }
    { user := "intruder", charity := "ch1" } none (some "new caption") 9
    (by decide)

/-- C3: An authorized post edit that supplies only a caption leaves
`image`, `shareableImage`, `category` and every reference field (`user`,
`campaign`, `charity`, `donations`) unchanged, and `lastModified` after
the call — set to the current time — is strictly greater than before
(whenever the clock has advanced past the stored timestamp). -/
theorem post_edit_caption_frame
    (p : PostDoc) (t : Token) (caption : Option String) (now : Nat)
    (hauth : Post.authenticatedToken p t = true)
    (hclock : ∀ b ∈ p.lastModified, b < now) :
    ∃ d, Post.edit p t none caption now = Except.ok d ∧
      d.image = p.image ∧ d.shareableImage = p.shareableImage ∧
      d.category = p.category ∧ d.user = p.user ∧
      d.campaign = p.campaign ∧ d.charity = p.charity ∧
      d.donations = p.donations ∧ d.lastModified = some now ∧
      (∀ b ∈ p.lastModified, ∀ a ∈ d.lastModified, b < a) := by
  refine ⟨Post.applyEditSet p caption now, ?_, rfl, rfl, rfl, rfl, rfl, rfl,
    rfl, rfl, ?_⟩
  · simp [Post.edit, hauth]
  · intro b hb a ha
    have hna : now = a := by
      simpa [Post.applyEditSet] using ha
    exact hna ▸ hclock b hb

/-- Witness for `post_edit_caption_frame`: the owner updates only the
caption of a concrete post last modified at time 3, at time 5. -/
theorem post_edit_caption_frame_witness :
    ∃ d, Post.edit
        { guid := "p1", user := "u1", campaign := "c1",
          category := "Education", charity := "ch1",
          image := "http://x.com/a.png",
          shareableImage := "http://x.com/b.png",
          caption := some "old", lastModified := some 3 }
        { user := "u1", charity := "ch1" } none (some "new") 5 =
        Except.ok d ∧
      d.image = "http://x.com/a.png" ∧
      d.shareableImage = "http://x.com/b.png" ∧
      d.category = "Education" ∧ d.user = "u1" ∧ d.campaign = "c1" ∧
      d.charity = "ch1" ∧ d.donations = [] ∧ d.lastModified = some 5 ∧
      (∀ b ∈ (some 3 : Option Nat), ∀ a ∈ d.lastModified, b < a) :=
  post_edit_caption_frame
    { guid := "p1", user := "u1", campaign := "c1", category := "Education",
      charity := "ch1", image := "http://x.com/a.png",
      shareableImage := "http://x.com/b.png", caption := some "old",
      lastModified := some 3 }
    { user := "u1", charity := "ch1" } (some "new") 5 (by decide)
    (by intro b hb; cases hb; decide)

/-- C8: `format` on a post returns a composite view carrying the post's
own fields unmodified; each of the three independent reference lookups
(charity, campaign, user) that resolves contributes its fixed whitelist of
display fields under distinct keys, and each that fails to resolve simply
leaves its group of fields absent — the call always produces a view, never
an error. -/
theorem post_format_join_tolerant
    (p : PostDoc) (fc : String → Option CharityDoc)
    (fcam : String → Option CampaignDoc) (fu : String → Option UserDoc) :
    (Post.format p fc fcam fu).post = p ∧
    (fc p.charity = none →
      (Post.format p fc fcam fu).charityName = none ∧
      (Post.format p fc fcam fu).charityLogo = none ∧
      (Post.format p fc fcam fu).charityDescription = none) ∧
    (∀ ch, fc p.charity = some ch →
      (Post.format p fc fcam fu).charityName = some ch.name ∧
      (Post.format p fc fcam fu).charityLogo = some ch.logo ∧
      (Post.format p fc fcam fu).charityDescription = some ch.description) ∧
    (fcam p.campaign = none →
      (Post.format p fc fcam fu).campaignName = none ∧
      (Post.format p fc fcam fu).campaignDescription = none) ∧
    (∀ cam, fcam p.campaign = some cam →
      (Post.format p fc fcam fu).campaignName = some cam.name ∧
      (Post.format p fc fcam fu).campaignDescription = some cam.description) ∧
    (fu p.user = none → (Post.format p fc fcam fu).userName = none) ∧
    (∀ u, fu p.user = some u →
      (Post.format p fc fcam fu).userName = some u.name) := by
  rcases hc : fc p.charity with _ | ch <;>
    rcases hcam : fcam p.campaign with _ | cam <;>
      rcases hu : fu p.user with _ | u <;>
        simp [Post.format, hc, hcam, hu]

/-- Witness for `post_format_join_tolerant`: the referenced campaign has
been erased from the store (the lookup yields nothing), so the view keeps
the post's own fields, omits the campaign group, and still carries the
resolved user's name. -/
theorem post_format_join_tolerant_witness :
    (Post.format
        { guid := "p1", user := "u1", campaign := "gone",
          category := "Education", charity := "ch1",
          image := "http://x.com/a.png",
          shareableImage := "http://x.com/b.png" }
        (fun _ => none) (fun _ => none)
        (fun g => if g = "u1" then
            some { guid := "u1", name := "Alice",
                   email := "alice@example.com", password := "h" }
          else none)).post =
      { guid := "p1", user := "u1", campaign := "gone",
        category := "Education", charity := "ch1",
        image := "http://x.com/a.png",
        shareableImage := "http://x.com/b.png" } ∧
    (Post.format
        { guid := "p1", user := "u1", campaign := "gone",
          category := "Education", charity := "ch1",
          image := "http://x.com/a.png",
          shareableImage := "http://x.com/b.png" }
        (fun _ => none) (fun _ => none)
        (fun g => if g = "u1" then
            some { guid := "u1", name := "Alice",
                   email := "alice@example.com", password := "h" }
          else none)).campaignName = none ∧
    (Post.format
        { guid := "p1", user := "u1", campaign := "gone",
          category := "Education", charity := "ch1",
          image := "http://x.com/a.png",
          shareableImage := "http://x.com/b.png" }
        (fun _ => none) (fun _ => none)
        (fun g => if g = "u1" then
            some { guid := "u1", name := "Alice",
                   email := "alice@example.com", password := "h" }
          else none)).userName = some "Alice" := by
  refine ⟨(post_format_join_tolerant _ _ _ _).1,
    ((post_format_join_tolerant _ _ _ _).2.2.2.1 rfl).1,
    ?_⟩
  have := (post_format_join_tolerant
    { guid := "p1", user := "u1", campaign := "gone",
      category := "Education", charity := "ch1",
      image := "http://x.com/a.png",
      shareableImage := "http://x.com/b.png" }
    (fun _ => none) (fun _ => none)
    (fun g => if g = "u1" then
        some { guid := "u1", name := "Alice",
               email := "alice@example.com", password := "h" }
      else none)).2.2.2.2.2.2
    { guid := "u1", name := "Alice", email := "alice@example.com",
      password := "h" } (by rfl)
  exact this

/-- C9: Every child-reference append (`addDonation` on a post;
`addUser`, `addCampaign`, `addUpdate` on a charity) is a single `$push` of
the child's `guid`: the named array afterwards equals the array before with
the child id appended, and every other field of the document is
unchanged. -/
theorem addChildReference_appends :
    (∀ (p : PostDoc) (d : String),
      Post.addDonation p d = { p with donations := p.donations ++ [d] }) ∧
    (∀ (c : CharityDoc) (u : String),
      Charity.addUser c u = { c with users := c.users ++ [u] }) ∧
    (∀ (c : CharityDoc) (t : Token) (g : String) (r : CharityDoc),
      Charity.addCampaign c t g = Except.ok r →
        r = { c with campaigns := c.campaigns ++ [g] }) ∧
    (∀ (c : CharityDoc) (t : Token) (g : String) (r : CharityDoc),
      Charity.addUpdate c t g = Except.ok r →
        r = { c with updates := c.updates ++ [g] }) := by
  refine ⟨fun _ _ => rfl, fun _ _ => rfl, ?_, ?_⟩
  · intro c t g r h
    by_cases ha : Charity.authenticatedToken c t <;>
      simp [Charity.addCampaign, ha] at h
    exact h.symm
  · intro c t g r h
    by_cases ha : Charity.authenticatedToken c t <;>
      simp [Charity.addUpdate, ha] at h
    exact h.symm

/-- Witness for `addChildReference_appends`: an authorized `addUpdate` on a
concrete charity appends exactly the update's id. -/
theorem addChildReference_appends_witness :
    Post.addDonation
        { guid := "p1", user := "u1", campaign := "c1",
          category := "Education", charity := "ch1",
          image := "http://x.com/a.png",
          shareableImage := "http://x.com/b.png",
          donations := ["d1"] } "d2" =
      { guid := "p1", user := "u1", campaign := "c1",
        category := "Education", charity := "ch1",
        image := "http://x.com/a.png",
        shareableImage := "http://x.com/b.png",
        donations := ["d1", "d2"] } ∧
    ({ guid := "ch1", name := "HH", charityToken := "tok1",
       updates := ["up1", "up2"] } : CharityDoc) =
      { guid := "ch1", name := "HH", charityToken := "tok1",
        updates := ["up1"] ++ ["up2"] } := by
  constructor
  · exact addChildReference_appends.1
      { guid := "p1", user := "u1", campaign := "c1",
        category := "Education", charity := "ch1",
        image := "http://x.com/a.png",
        shareableImage := "http://x.com/b.png", donations := ["d1"] } "d2"
  · exact addChildReference_appends.2.2.2
      { guid := "ch1", name := "HH", charityToken := "tok1",
        updates := ["up1"] }
      { user := "u1", charity := "ch1" } "up2" _ (by rfl)

/-- C10: `Post.edit` never modifies any field other than `caption` and
`lastModified`: a supplied `image` parameter is ignored (the method
destructures only `token` and `caption`), and when the supplied caption is
falsy (absent, null or the empty string) the stored caption is left
unchanged while the authorized write still occurs and sets
`lastModified`. -/
theorem post_edit_only_caption_lastModified
    (p : PostDoc) (t : Token) (image image2 caption : Option String)
    (now : Nat) :
    Post.edit p t image caption now = Post.edit p t image2 caption now ∧
    (∀ d, Post.edit p t image caption now = Except.ok d →
      d.guid = p.guid ∧ d.objectType = p.objectType ∧ d.user = p.user ∧
      d.campaign = p.campaign ∧ d.category = p.category ∧
      d.charity = p.charity ∧ d.image = p.image ∧
      d.shareableImage = p.shareableImage ∧ d.donations = p.donations ∧
      d.dateCreated = p.dateCreated ∧ d.erased = p.erased) ∧
    (jsTruthy caption = false →
      ∀ d, Post.edit p t image caption now = Except.ok d →
        d.caption = p.caption ∧ d.lastModified = some now) ∧
    (Post.authenticatedToken p t = true →
      ∃ d, Post.edit p t image caption now = Except.ok d) := by
  refine ⟨rfl, ?_, ?_, ?_⟩
  · intro d h
    by_cases ha : Post.authenticatedToken p t <;>
      simp [Post.edit, ha] at h
    rw [← h]
    simp [Post.applyEditSet]
  · intro hcap d h
    by_cases ha : Post.authenticatedToken p t <;>
      simp [Post.edit, ha] at h
    rw [← h]
    simp [Post.applyEditSet, jsSetOptString, hcap]
  · intro ha
    exact ⟨Post.applyEditSet p caption now, by simp [Post.edit, ha]⟩

/-- Witness for `post_edit_only_caption_lastModified`: the owner calls edit
supplying an image and an empty caption; the stored caption and image are
untouched and `lastModified` is set. -/
theorem post_edit_only_caption_lastModified_witness :
    Post.edit
        { guid := "p1", user := "u1", campaign := "c1",
          category := "Education", charity := "ch1",
          image := "http://x.com/a.png",
          shareableImage := "http://x.com/b.png",
          caption := some "keep me", lastModified := some 3 }
        { user := "u1", charity := "ch1" }
        (some "http://x.com/other.png") (some "") 9 =
      Post.edit
        { guid := "p1", user := "u1", campaign := "c1",
          category := "Education", charity := "ch1",
          image := "http://x.com/a.png",
          shareableImage := "http://x.com/b.png",
          caption := some "keep me", lastModified := some 3 }
        { user := "u1", charity := "ch1" } none (some "") 9 ∧
    (Post.applyEditSet
        { guid := "p1", user := "u1", campaign := "c1",
          category := "Education", charity := "ch1",
          image := "http://x.com/a.png",
          shareableImage := "http://x.com/b.png",
          caption := some "keep me", lastModified := some 3 }
        (some "") 9).caption = some "keep me" ∧
    (Post.applyEditSet
        { guid := "p1", user := "u1", campaign := "c1",
          category := "Education", charity := "ch1",
          image := "http://x.com/a.png",
          shareableImage := "http://x.com/b.png",
          caption := some "keep me", lastModified := some 3 }
        (some "") 9).lastModified = some 9 := by
  refine ⟨(post_edit_only_caption_lastModified _ _ _ _ _ _).1, ?_, ?_⟩
  · exact ((post_edit_only_caption_lastModified
      { guid := "p1", user := "u1", campaign := "c1",
        category := "Education", charity := "ch1",
        image := "http://x.com/a.png",
        shareableImage := "http://x.com/b.png",
        caption := some "keep me", lastModified := some 3 }
      { user := "u1", charity := "ch1" }
      (some "http://x.com/other.png") none (some "") 9).2.2.1 (by decide)
      _ (by rfl)).1
  · exact ((post_edit_only_caption_lastModified
      { guid := "p1", user := "u1", campaign := "c1",
        category := "Education", charity := "ch1",
        image := "http://x.com/a.png",
        shareableImage := "http://x.com/b.png",
        caption := some "keep me", lastModified := some 3 }
      { user := "u1", charity := "ch1" }
      (some "http://x.com/other.png") none (some "") 9).2.2.1 (by decide)
      _ (by rfl)).2
